import Mathlib

/-!
Verification of the GitHub advisory fetcher
(`github_advisory_client.py`, `main.py`, `cli_parser.py`).

The Python code is shallowly embedded: JSON values become an inductive
type, the paginated iterator becomes a structurally recursive loop whose
fuel is `max_pages` (the code's `while max_pages is None or page <= max_pages`
loop, specialised to a set `max_pages`, which is how every claim and the
CLI, whose `--max-pages` defaults to 1, exercise it), HTTP and the Python
standard-library primitives (`json.loads`, `int`, `float`, `os.getenv`)
become explicit parameters or total functions, and the command driver
becomes a pure function from its inputs to an outcome record (exit code,
stderr lines, stdout lines, file writes, the constructed client, and the
number of page fetches issued).
-/

namespace AdvisoryFetcher

/-- A decoded JSON value, as produced by Python `json.loads`.  `null` also
stands for Python `None` (the value `_fetch_json` returns for an empty
body).  Numbers are modelled as integers; no claim inspects numeric
payloads. -/
inductive Json where
  | null
  | bool (b : Bool)
  | num (n : Int)
  | str (s : String)
  | arr (elems : List Json)
  | obj (members : List (String × Json))
deriving Repr, Inhabited

/-- Python `isinstance(v, dict)` on a decoded JSON value. -/
def Json.isDict : Json → Bool
  | .obj _ => true
  | _ => false

/-- Python `isinstance(v, list)` on a decoded JSON value. -/
def Json.isList : Json → Bool
  | .arr _ => true
  | _ => false

/-- Python `type(v).__name__` on a decoded JSON value (used in the
`Expected list response` error message of `fetch_advisories`). -/
def Json.pyTypeName : Json → String
  | .null => "NoneType"
  | .bool _ => "bool"
  | .num _ => "int"
  | .str _ => "str"
  | .arr _ => "list"
  | .obj _ => "dict"

/-!
### Page iterator (`GitHubAdvisoryClient.iter_advisories`, lines 113-154)

`iterLoop fetchPage page rem` embeds the `while` loop of
`iter_advisories` arriving at page `page` with `rem` pages still allowed
by `max_pages` (so `rem = max_pages - page + 1`).  The result is the
flat list of yielded records together with the number of calls made to
`fetch_advisories`.  The `sleep_s` pause has no observable effect on the
yielded sequence and is not modelled.
-/

def iterLoop (fetchPage : Nat → List Json) : Nat → Nat → List Json × Nat
  | _, 0 => ([], 0)
  | page, rem + 1 =>
    let advisories := fetchPage page
    if advisories.isEmpty then
      ([], 1)
    else
      let rest := iterLoop fetchPage (page + 1) rem
      (advisories ++ rest.1, rest.2 + 1)

/-- `iter_advisories` with `max_pages` set: the loop starts at page 1 and
runs while `page <= max_pages`. -/
def iter_advisories (fetchPage : Nat → List Json) (max_pages : Nat) :
    List Json × Nat :=
  iterLoop fetchPage 1 max_pages

/-- The loop never issues more page fetches than it has remaining pages. -/
theorem iterLoop_calls_le (fetchPage : Nat → List Json) :
    ∀ rem page, (iterLoop fetchPage page rem).2 ≤ rem := by
  intro rem
  induction rem with
  | zero => intro page; simp [iterLoop]
  | succ n ih =>
    intro page
    simp only [iterLoop]
    split
    · exact Nat.succ_le_succ (Nat.zero_le n)
    · exact Nat.succ_le_succ (ih (page + 1))

/-- Claim C1: with the canned pages `[[a, b], [c], []]` and
`max_pages = 5`, `iter_advisories` yields exactly `a, b, c` in that order
and performs exactly 3 page fetches, stopping at the first empty page. -/
theorem iter_advisories_canned_pages (a b c : Json) :
    iter_advisories
        (fun p => if p = 1 then [a, b] else if p = 2 then [c] else []) 5
      = ([a, b, c], 3) := by
  simp [iter_advisories, iterLoop]

/-- Claim C2: `iter_advisories` with `max_pages = N` issues at most `N`
page fetches whatever the remote returns, and with `N = 0` it issues
none at all. -/
theorem iter_advisories_calls_bounded (fetchPage : Nat → List Json) (N : Nat) :
    (iter_advisories fetchPage N).2 ≤ N ∧
    (iter_advisories fetchPage 0).2 = 0 :=
  ⟨iterLoop_calls_le fetchPage N 1, rfl⟩

/-!
### Client configuration and headers (`GitHubAdvisoryClient`, lines 12-31)
-/

/-- The frozen dataclass `GitHubAdvisoryClient`. -/
structure GitHubAdvisoryClient where
  token : Option String
  api_base_url : String
  api_version : String
  user_agent : String
  request_timeout_s : Int
deriving Repr, DecidableEq

/-- Python truthiness of an `Optional[str]`: `None` and the empty string
are falsy. -/
def strTruthy : Option String → Bool
  | none => false
  | some s => !(s = "")

/-- `GitHubAdvisoryClient._build_headers` (lines 22-31): the three fixed
headers in insertion order; `Authorization` is appended only when
`self.token` is truthy. -/
def build_headers (c : GitHubAdvisoryClient) : List (String × String) :=
  let headers := [("Accept", "application/vnd.github+json"),
                  ("X-GitHub-Api-Version", c.api_version),
                  ("User-Agent", c.user_agent)]
  if strTruthy c.token then
    headers ++ [("Authorization", "Bearer " ++ c.token.getD "")]
  else
    headers

/-!
### Query parameters (`_fetch_json` lines 41-45, `fetch_advisories` lines 95-104)

`fetch_advisories` always passes a five-key dict; `_fetch_json` drops the
entries whose value `is None` and urlencodes the rest, in insertion order.
-/

/-- A value placed in the `query_params` dict: an `Optional[str]` filter,
an `int`, or Python `None`. -/
inductive PyParamVal where
  | strVal (s : String)
  | intVal (n : Int)
  | noneVal
deriving Repr, DecidableEq

/-- The `query_params` dict literal of `fetch_advisories` (lines 97-103),
in insertion order. -/
def fetch_advisories_params (ecosystem severity advisory_type : Option String)
    (per_page page : Int) : List (String × PyParamVal) :=
  [("ecosystem", (ecosystem.map PyParamVal.strVal).getD .noneVal),
   ("severity", (severity.map PyParamVal.strVal).getD .noneVal),
   ("type", (advisory_type.map PyParamVal.strVal).getD .noneVal),
   ("per_page", .intVal per_page),
   ("page", .intVal page)]

/-- Line 43 of `_fetch_json`: keep only the entries whose value
`is not None`. -/
def filterNoneParams (ps : List (String × PyParamVal)) :
    List (String × PyParamVal) :=
  ps.filter fun kv => kv.2 ≠ PyParamVal.noneVal

/-- Claim C3: the filtered parameter list, from which the query string is
urlencoded, carries exactly the filter keys that were set (plus the
always-present `per_page` and `page`); an absent filter contributes no
key at all, so it cannot appear even as an empty-valued parameter. -/
theorem query_keys_exact (ecosystem severity advisory_type : Option String)
    (per_page page : Int) :
    (filterNoneParams
        (fetch_advisories_params ecosystem severity advisory_type per_page page)).map
        Prod.fst
      = (if ecosystem.isSome then ["ecosystem"] else [])
        ++ (if severity.isSome then ["severity"] else [])
        ++ (if advisory_type.isSome then ["type"] else [])
        ++ ["per_page", "page"] := by
  cases ecosystem <;> cases severity <;> cases advisory_type <;>
    simp [filterNoneParams, fetch_advisories_params, List.filter]

/-!
### HTTP fetch and JSON decode (`_fetch_json` lines 33-72)

`urllib.request.urlopen` either yields a response whose decoded text we
see, or raises `HTTPError` carrying a status code, a maybe-readable body
and a reason string.  `json.loads` is abstracted as a `loads` parameter
returning `Except` (it raises on malformed text, uncaught by the code).
-/

/-- Outcome of the single `urlopen` call in `_fetch_json`. -/
inductive UrlopenResult where
  | ok (text : String)
  | httpError (code : Nat) (body : Option String) (reason : String)
deriving Repr

/-- `_extract_error_message` (lines 66-72): the decoded error body when
`error.read()` succeeds, otherwise the reason string. -/
def extract_error_message (body : Option String) (reason : String) : String :=
  body.getD reason

/-- Lines 54-58 of `_fetch_json`: decode the response text, an empty body
yielding Python `None` (here `Json.null`) instead of being parsed. -/
def response_decode (loads : String → Except String Json) (text : String) :
    Except String Json :=
  if text = "" then .ok Json.null else loads text

/-- `_fetch_json` after the URL was built (lines 53-64): a successful
response is decoded; an `HTTPError` becomes a `RuntimeError` whose
message embeds the status code and the extracted body or reason. -/
def fetch_json (loads : String → Except String Json) :
    UrlopenResult → Except String Json
  | .ok text => response_decode loads text
  | .httpError code body reason =>
      .error ("GitHub API request failed (HTTP " ++ toString code ++ "): "
        ++ extract_error_message body reason)

/-- Lines 106-111 of `fetch_advisories`: reject a non-list decoded value
with the `Expected list response` error, and keep only the dict-typed
elements of a list. -/
def fetch_advisories_post : Json → Except String (List Json)
  | .arr items => .ok (items.filter Json.isDict)
  | v => .error ("Expected list response from API, got " ++ v.pyTypeName)

/-- `fetch_advisories` on a given wire response: `_fetch_json` then the
list check and dict filter. -/
def fetch_advisories (loads : String → Except String Json)
    (resp : UrlopenResult) : Except String (List Json) :=
  (fetch_json loads resp).bind fetch_advisories_post

/-- Claim C4: a non-success HTTP response makes `fetch_json` fail with a
message embedding both the numeric status code and the body text (or the
reason string when the body is unreadable); the single response is
consumed by exactly the one request, never retried. -/
theorem fetch_json_http_error (loads : String → Except String Json)
    (code : Nat) (body reason : String) :
    ∃ pre mid,
      fetch_json loads (.httpError code (some body) reason)
        = .error (pre ++ toString code ++ mid ++ body) ∧
      fetch_json loads (.httpError code none reason)
        = .error (pre ++ toString code ++ mid ++ reason) :=
  ⟨"GitHub API request failed (HTTP ", "): ", rfl, rfl⟩

/-- Claim C5: a decoded top-level value that is not a list makes
`fetch_advisories` fail with the `Expected list response` protocol error,
while a list is filtered down to its dict elements without any error. -/
theorem fetch_advisories_list_check (v : Json) (hv : v.isList = false) :
    (fetch_advisories_post v
        = .error ("Expected list response from API, got " ++ v.pyTypeName)) ∧
    ∀ items : List Json,
      fetch_advisories_post (.arr items) = .ok (items.filter Json.isDict) := by
  refine ⟨?_, fun items => rfl⟩
  cases v <;> simp_all [Json.isList, fetch_advisories_post]

/-- Claim C5 witness: a JSON object is rejected with the protocol error,
and an array keeps exactly its object-typed entries. -/
theorem fetch_advisories_list_check_witness :
    (fetch_advisories_post (.obj [])
        = .error ("Expected list response from API, got "
            ++ (Json.obj []).pyTypeName)) ∧
    fetch_advisories_post (.arr [Json.obj [], Json.num 3])
        = .ok [Json.obj []] :=
  ⟨(fetch_advisories_list_check (.obj []) rfl).1,
   (fetch_advisories_list_check (.obj []) rfl).2 [Json.obj [], Json.num 3]⟩

/-- Claim C6: an empty response body decodes to the absent value (Python
`None`) rather than raising a JSON decode error, whatever the parser
would do on other inputs. -/
theorem empty_body_decodes_to_none (loads : String → Except String Json) :
    response_decode loads "" = .ok Json.null :=
  rfl

/-- Claim C9: `build_headers` omits `Authorization` entirely when the
token is the empty string, exactly as when it is `None`, and a
`Bearer` header is present precisely when the token is a non-empty
string. -/
theorem authorization_header_iff (c : GitHubAdvisoryClient) :
    (c.token = some "" →
      build_headers c = build_headers { c with token := none }) ∧
    (c.token = none → "Authorization" ∉ (build_headers c).map Prod.fst) ∧
    (c.token = some "" → "Authorization" ∉ (build_headers c).map Prod.fst) ∧
    ∀ t : String, c.token = some t → t ≠ "" →
      ("Authorization", "Bearer " ++ t) ∈ build_headers c := by
  refine ⟨?_, ?_, ?_, ?_⟩
  · intro h; simp [build_headers, h, strTruthy]
  · intro h; simp [build_headers, h, strTruthy]
  · intro h; simp [build_headers, h, strTruthy]
  · intro t ht hne
    simp [build_headers, ht, strTruthy, hne]

/-- Claim C9 witness: with an empty-string token the headers coincide
with the token-less headers and carry no `Authorization` key; with token
`abc` the `Bearer abc` header is present. -/
theorem authorization_header_iff_witness :
    (build_headers ⟨some "", "https://api.github.com", "2022-11-28",
        "dataset-generator/0.1", 30⟩
      = build_headers ⟨none, "https://api.github.com", "2022-11-28",
        "dataset-generator/0.1", 30⟩) ∧
    ("Authorization" ∉
      (build_headers ⟨some "", "https://api.github.com", "2022-11-28",
        "dataset-generator/0.1", 30⟩).map Prod.fst) ∧
    ("Authorization", "Bearer " ++ "abc") ∈
      build_headers ⟨some "abc", "https://api.github.com", "2022-11-28",
        "dataset-generator/0.1", 30⟩ :=
  ⟨(authorization_header_iff _).1 rfl,
   (authorization_header_iff ⟨some "", "https://api.github.com", "2022-11-28",
      "dataset-generator/0.1", 30⟩).2.2.1 rfl,
   (authorization_header_iff _).2.2.2 "abc" rfl (by decide)⟩

/-!
### Output serialization (`main.py` lines 48-53)

Both output paths of the command driver serialize the fetched list with
the Python `json` module and the same keyword arguments
(`ensure_ascii=False, indent=2`); `pyJsonDumps` is that serializer:
2-space indentation, `", "`-free item separators with a newline, `": "`
key separators, control characters and quotes escaped, every other
character (non-ASCII included) left as is. -/

/-- Lower-case hex digit, as used by the `json` module escape `\uXXXX`. -/
def hexDigit (n : Nat) : Char :=
  if n < 10 then Char.ofNat (48 + n) else Char.ofNat (87 + n)

/-- Escape of one character inside a JSON string literal with
`ensure_ascii=False`: backslash, quote and the named control escapes,
`\u00XX` for the remaining control characters, identity otherwise. -/
def escapeJsonChar (c : Char) : String :=
  if c = '\\' then "\\\\"
  else if c = '"' then "\\\""
  else if c = '\n' then "\\n"
  else if c = '\r' then "\\r"
  else if c = '\t' then "\\t"
  else if c.toNat = 8 then "\\b"
  else if c.toNat = 12 then "\\f"
  else if c.toNat < 32 then
    "\\u00" ++ String.singleton (hexDigit (c.toNat / 16))
      ++ String.singleton (hexDigit (c.toNat % 16))
  else String.singleton c

/-- A JSON string literal: quoted, characters escaped. -/
def jsonQuote (s : String) : String :=
  "\"" ++ String.join (s.toList.map escapeJsonChar) ++ "\""

/-- `2 * lvl` spaces: the indentation of nesting level `lvl` under
`indent=2`. -/
def indentOf (lvl : Nat) : String :=
  String.mk (List.replicate (2 * lvl) ' ')

mutual

/-- `json.dumps(v, ensure_ascii=False, indent=2)` rendered at nesting
level `lvl`. -/
def dumpsVal (lvl : Nat) : Json → String
  | .null => "null"
  | .bool b => if b then "true" else "false"
  | .num n => toString n
  | .str s => jsonQuote s
  | .arr [] => "[]"
  | .arr (x :: xs) =>
      "[\n" ++ indentOf (lvl + 1)
        ++ String.intercalate (",\n" ++ indentOf (lvl + 1))
            (dumpsItems (lvl + 1) (x :: xs))
        ++ "\n" ++ indentOf lvl ++ "]"
  | .obj [] => "\x7b\x7d"
  | .obj (m :: ms) =>
      "\x7b\n" ++ indentOf (lvl + 1)
        ++ String.intercalate (",\n" ++ indentOf (lvl + 1))
            (dumpsMembers (lvl + 1) (m :: ms))
        ++ "\n" ++ indentOf lvl ++ "\x7d"

/-- The rendered elements of an array, each at level `lvl`. -/
def dumpsItems (lvl : Nat) : List Json → List String
  | [] => []
  | x :: xs => dumpsVal lvl x :: dumpsItems lvl xs

/-- The rendered `"key": value` members of an object, each at level
`lvl`. -/
def dumpsMembers (lvl : Nat) : List (String × Json) → List String
  | [] => []
  | (k, v) :: ms => (jsonQuote k ++ ": " ++ dumpsVal lvl v) :: dumpsMembers lvl ms

end

/-- Top-level `json.dumps(v, ensure_ascii=False, indent=2)`. -/
def pyJsonDumps (v : Json) : String :=
  dumpsVal 0 v

/-!
### Command driver (`main.py` lines 13-55)

`os.getenv` becomes an `env : String → Option String` map.  Python
`a or b` on strings treats `None` and `""` as falsy, which is what lets
an empty environment value fall back to the default.  The library
parsers `int` and `float` are abstracted as `parseInt` and `parseFloat`
parameters (a `ValueError` is `none`); `float` values are carried as
rationals, though the driver never observes the parsed sleep value.
-/

/-- The parsed `fetch-advisories` CLI arguments (`cli_parser.py` lines
11-22); `--per-page` defaults to 100, `--max-pages` to 1, the filters
and `--out` to `None`. -/
structure Args where
  ecosystem : Option String
  severity : Option String
  advisory_type : Option String
  per_page : Int
  max_pages : Int
  out : Option String
deriving Repr, DecidableEq

/-- Python `a or b` on two `Optional[str]` values: the first if truthy,
otherwise the second. -/
def pyOrOpt (a b : Option String) : Option String :=
  match a with
  | some s => if s = "" then b else some s
  | none => b

/-- `os.getenv(key) or dflt`: the environment value if set and
non-empty, otherwise the fallback default. -/
def getenvOr (env : String → Option String) (key dflt : String) : String :=
  match env key with
  | some v => if v = "" then dflt else v
  | none => dflt

/-- The environment-derived raw configuration of `cmd_fetch_advisories`
(lines 15-21): token and string settings with their fallback defaults,
and the still-unparsed numeric settings. -/
structure ResolvedEnv where
  token : Option String
  api_base_url : String
  api_version : String
  user_agent : String
  timeout_str : String
  sleep_str : String
deriving Repr, DecidableEq

/-- Lines 15-21 of `cmd_fetch_advisories` before the numeric parses. -/
def resolveEnv (env : String → Option String) : ResolvedEnv :=
  { token := pyOrOpt (env "GITHUB_TOKEN") (env "github_token")
    api_base_url := getenvOr env "GITHUB_API_BASE_URL" "https://api.github.com"
    api_version := getenvOr env "GITHUB_API_VERSION" "2022-11-28"
    user_agent := getenvOr env "GITHUB_USER_AGENT" "dataset-generator/0.1"
    timeout_str := getenvOr env "GITHUB_TIMEOUT_S" "30"
    sleep_str := getenvOr env "GITHUB_API_SLEEP_S" "0.0" }

/-- Everything observable about one run of `cmd_fetch_advisories`: the
returned exit code, the lines printed to stderr and stdout, the files
written with their contents, the client constructed (if any), and the
number of page fetches issued. -/
structure DriverOutcome where
  exitCode : Int
  stderrLines : List String
  stdoutLines : List String
  fileWrites : List (String × String)
  clientBuilt : Option GitHubAdvisoryClient
  fetchCalls : Nat
deriving Repr

/-- `cmd_fetch_advisories` (`main.py` lines 13-55).  A failed numeric
parse prints the diagnostic and returns 2 before the client exists or
any fetch happens; otherwise the client is built, the iterator is driven
to completion (the per-page fetch outcome abstracted as `fetchPage`),
and the items are serialized to the `--out` file or to stdout.  The
output dispatch is `if args.out:` (line 48), Python truthiness, so an
empty `--out` path is falsy and the run prints the JSON to stdout,
writing no file. -/
def cmd_fetch_advisories (parseInt : String → Option Int)
    (parseFloat : String → Option Rat) (env : String → Option String)
    (fetchPage : Nat → List Json) (args : Args) : DriverOutcome :=
  let r := resolveEnv env
  match parseInt r.timeout_str, parseFloat r.sleep_str with
  | some timeout_s, some _sleep_s =>
    let warn := if strTruthy r.token then []
      else ["Warning: GITHUB_TOKEN not set; requests may be rate-limited."]
    let client : GitHubAdvisoryClient :=
      ⟨r.token, r.api_base_url, r.api_version, r.user_agent, timeout_s⟩
    let res := iter_advisories fetchPage args.max_pages.toNat
    if strTruthy args.out then
      let path := args.out.getD ""
      { exitCode := 0
        stderrLines := warn
        stdoutLines := ["Wrote " ++ toString res.1.length
          ++ " advisories to " ++ path]
        fileWrites := [(path, pyJsonDumps (Json.arr res.1))]
        clientBuilt := some client
        fetchCalls := res.2 }
    else
      { exitCode := 0
        stderrLines := warn
        stdoutLines := [pyJsonDumps (Json.arr res.1)]
        fileWrites := []
        clientBuilt := some client
        fetchCalls := res.2 }
  | _, _ =>
    { exitCode := 2
      stderrLines :=
        ["Invalid env var: expected GITHUB_TIMEOUT_S=int and GITHUB_API_SLEEP_S=float"]
      stdoutLines := []
      fileWrites := []
      clientBuilt := none
      fetchCalls := 0 }

/-- Claim C7: when the timeout (or sleep) environment value fails its
numeric parse, the driver prints the diagnostic to stderr and returns
exit code 2, with no client constructed and no fetch issued. -/
theorem env_parse_failure_exits_2 (parseInt : String → Option Int)
    (parseFloat : String → Option Rat) (env : String → Option String)
    (fetchPage : Nat → List Json) (args : Args)
    (h : parseInt (resolveEnv env).timeout_str = none ∨
         parseFloat (resolveEnv env).sleep_str = none) :
    cmd_fetch_advisories parseInt parseFloat env fetchPage args =
      { exitCode := 2
        stderrLines :=
          ["Invalid env var: expected GITHUB_TIMEOUT_S=int and GITHUB_API_SLEEP_S=float"]
        stdoutLines := []
        fileWrites := []
        clientBuilt := none
        fetchCalls := 0 } := by
  rcases h with h | h
  · simp [cmd_fetch_advisories, h]
  · cases hpi : parseInt (resolveEnv env).timeout_str <;>
      simp [cmd_fetch_advisories, h, hpi]

/-- Claim C7 witness: `GITHUB_TIMEOUT_S=notanumber` with a parser that
rejects it makes the driver exit 2 with the stderr diagnostic, no
client and no fetch. -/
theorem env_parse_failure_exits_2_witness :
    cmd_fetch_advisories (fun _ => (none : Option Int))
        (fun _ => some 0)
        (fun k => if k = "GITHUB_TIMEOUT_S" then some "notanumber" else none)
        (fun _ => []) ⟨none, none, none, 100, 1, none⟩ =
      { exitCode := 2
        stderrLines :=
          ["Invalid env var: expected GITHUB_TIMEOUT_S=int and GITHUB_API_SLEEP_S=float"]
        stdoutLines := []
        fileWrites := []
        clientBuilt := none
        fetchCalls := 0 } :=
  env_parse_failure_exits_2 _ _ _ _ _ (Or.inl rfl)

/-- Claim C8: on a successful run whose `--out` path is non-empty (an
empty path is falsy under `if args.out:` and no file write happens), the
bytes written to the `--out` file are exactly the `json.dumps`
serialization that the same run would print to stdout without `--out`,
and the only stdout difference is the trailing
`Wrote ... advisories to ...` confirmation line. -/
theorem out_file_matches_stdout (parseInt : String → Option Int)
    (parseFloat : String → Option Rat) (env : String → Option String)
    (fetchPage : Nat → List Json) (args : Args) (path : String)
    (hpath : path ≠ "")
    (h : (cmd_fetch_advisories parseInt parseFloat env fetchPage
        { args with out := some path }).exitCode = 0) :
    (cmd_fetch_advisories parseInt parseFloat env fetchPage
        { args with out := some path }).fileWrites
      = [(path, pyJsonDumps (Json.arr
          (iter_advisories fetchPage args.max_pages.toNat).1))] ∧
    (cmd_fetch_advisories parseInt parseFloat env fetchPage
        { args with out := none }).stdoutLines
      = [pyJsonDumps (Json.arr
          (iter_advisories fetchPage args.max_pages.toNat).1)] ∧
    (cmd_fetch_advisories parseInt parseFloat env fetchPage
        { args with out := some path }).stdoutLines
      = ["Wrote "
          ++ toString (iter_advisories fetchPage args.max_pages.toNat).1.length
          ++ " advisories to " ++ path] := by
  cases hpi : parseInt (resolveEnv env).timeout_str with
  | none =>
    exfalso
    simp [cmd_fetch_advisories, hpi] at h
  | some t =>
    cases hpf : parseFloat (resolveEnv env).sleep_str with
    | none =>
      exfalso
      simp [cmd_fetch_advisories, hpi, hpf] at h
    | some s =>
      refine ⟨?_, ?_, ?_⟩ <;>
        simp [cmd_fetch_advisories, hpi, hpf, strTruthy, hpath]

/-- Claim C8 witness: a concrete successful run writing `out.json`
produces file bytes equal to the stdout serialization of the run
without `--out`, and prints only the confirmation line. -/
theorem out_file_matches_stdout_witness :
    (cmd_fetch_advisories (fun _ => some 30) (fun _ => some 0)
        (fun _ => none) (fun p => if p = 1 then [Json.obj []] else [])
        { (⟨none, none, none, 100, 2, none⟩ : Args) with
          out := some "out.json" }).fileWrites
      = [("out.json", pyJsonDumps (Json.arr
          (iter_advisories (fun p => if p = 1 then [Json.obj []] else [])
            (Int.toNat 2)).1))] ∧
    (cmd_fetch_advisories (fun _ => some 30) (fun _ => some 0)
        (fun _ => none) (fun p => if p = 1 then [Json.obj []] else [])
        { (⟨none, none, none, 100, 2, none⟩ : Args) with
          out := none }).stdoutLines
      = [pyJsonDumps (Json.arr
          (iter_advisories (fun p => if p = 1 then [Json.obj []] else [])
            (Int.toNat 2)).1)] ∧
    (cmd_fetch_advisories (fun _ => some 30) (fun _ => some 0)
        (fun _ => none) (fun p => if p = 1 then [Json.obj []] else [])
        { (⟨none, none, none, 100, 2, none⟩ : Args) with
          out := some "out.json" }).stdoutLines
      = ["Wrote "
          ++ toString (iter_advisories
              (fun p => if p = 1 then [Json.obj []] else [])
              (Int.toNat 2)).1.length
          ++ " advisories to " ++ "out.json"] :=
  out_file_matches_stdout (fun _ => some 30) (fun _ => some 0)
    (fun _ => none) (fun p => if p = 1 then [Json.obj []] else [])
    ⟨none, none, none, 100, 2, none⟩ "out.json" (by decide) rfl

/-- Claim C10: each of the five configuration environment variables,
when set to the empty string, is treated exactly as unset: the fixed
fallback default is resolved in its place. -/
theorem empty_env_vars_use_defaults (env : String → Option String) :
    (env "GITHUB_API_BASE_URL" = some "" →
      (resolveEnv env).api_base_url = "https://api.github.com") ∧
    (env "GITHUB_API_VERSION" = some "" →
      (resolveEnv env).api_version = "2022-11-28") ∧
    (env "GITHUB_USER_AGENT" = some "" →
      (resolveEnv env).user_agent = "dataset-generator/0.1") ∧
    (env "GITHUB_TIMEOUT_S" = some "" →
      (resolveEnv env).timeout_str = "30") ∧
    (env "GITHUB_API_SLEEP_S" = some "" →
      (resolveEnv env).sleep_str = "0.0") := by
  refine ⟨?_, ?_, ?_, ?_, ?_⟩ <;>
    (intro h; simp [resolveEnv, getenvOr, h])

/-- Claim C10 witness: with every environment variable set to the empty
string, all five settings resolve to their fallback defaults. -/
theorem empty_env_vars_use_defaults_witness :
    (resolveEnv (fun _ => some "")).api_base_url = "https://api.github.com" ∧
    (resolveEnv (fun _ => some "")).api_version = "2022-11-28" ∧
    (resolveEnv (fun _ => some "")).user_agent = "dataset-generator/0.1" ∧
    (resolveEnv (fun _ => some "")).timeout_str = "30" ∧
    (resolveEnv (fun _ => some "")).sleep_str = "0.0" :=
  ⟨(empty_env_vars_use_defaults (fun _ => some "")).1 rfl,
   (empty_env_vars_use_defaults (fun _ => some "")).2.1 rfl,
   (empty_env_vars_use_defaults (fun _ => some "")).2.2.1 rfl,
   (empty_env_vars_use_defaults (fun _ => some "")).2.2.2.1 rfl,
   (empty_env_vars_use_defaults (fun _ => some "")).2.2.2.2 rfl⟩

end AdvisoryFetcher
